import Mathlib

/-!
Verification of `xbot_positioning`'s `PositionMeasurementModel.hpp`
(namespace `xbot::positioning`), a GPS-antenna position measurement model
for an extended Kalman filter.  Scalars (`double`) are modelled as real
numbers; the 2-dimensional measurement vector is modelled as a function
`Fin 2 → ℝ` with component writes via `Function.update`, mirroring the
mutable accessors of `PositionMeasurement`.
-/

namespace XbotPositioning

/-- Modelled from the spec: the `State` class lives in `SystemModel.hpp`,
which is not part of the given sources.  Spec §2 and §4.1 describe it as a
named fixed-dimension vector (x-position, y-position, heading) with read
and mutable accessors and no validation. -/
structure State where
  x_pos : ℝ
  y_pos : ℝ
  theta : ℝ

/-- `PositionMeasurement`: a `Kalman::Vector<T, 2>` holding the measured
GPS antenna position. -/
def PositionMeasurement : Type := Fin 2 → ℝ

namespace PositionMeasurement

/-- X position component index of the GPS antenna (`X = 0`). -/
def X : Fin 2 := 0

/-- Y position component index of the GPS antenna (`Y = 1`). -/
def Y : Fin 2 := 1

/-- Read accessor `x_pos() const`: returns `(*this)[X]`. -/
def x_pos (m : PositionMeasurement) : ℝ := m X

/-- Read accessor `y_pos() const`: returns `(*this)[Y]`. -/
def y_pos (m : PositionMeasurement) : ℝ := m Y

/-- Mutable accessor `x_pos()`: assigning `v` through the returned
reference updates component `X` of the vector. -/
def set_x_pos (m : PositionMeasurement) (v : ℝ) : PositionMeasurement :=
  Function.update m X v

/-- Mutable accessor `y_pos()`: assigning `v` through the returned
reference updates component `Y` of the vector. -/
def set_y_pos (m : PositionMeasurement) (v : ℝ) : PositionMeasurement :=
  Function.update m Y v

end PositionMeasurement

/-- The result of `setIdentity()` on the 2×3 measurement Jacobian `H`:
ones on the main diagonal, zeros elsewhere. -/
def identity2x3 : Matrix (Fin 2) (Fin 3) ℝ :=
  Matrix.of fun i j => if (i : ℕ) = (j : ℕ) then 1 else 0

/-- The mutable fields of `PositionMeasurementModel`: the measurement
Jacobian `H` (2×3), the noise Jacobian `V` (2×2), and the antenna offset
calibration fields. -/
structure PositionMeasurementModel where
  V : Matrix (Fin 2) (Fin 2) ℝ
  H : Matrix (Fin 2) (Fin 3) ℝ
  antenna_distance_x : ℝ
  antenna_distance_y : ℝ

namespace PositionMeasurementModel

/-- The constructor `PositionMeasurementModel()`: the antenna offset
fields carry their in-class initializers `-0.01` and `0.03`, the noise
Jacobian is set to identity (`this->V.setIdentity()`), and `H` holds the
base-class identity initialization. -/
def construct : PositionMeasurementModel :=
  { V := 1
    H := identity2x3
    antenna_distance_x := -0.01
    antenna_distance_y := 0.03 }

/-- The measurement function `h`: maps the system state to the expected
GPS antenna position.  A fresh measurement vector is written through the
mutable accessors, exactly as in the source:
`measurement.x_pos() = x.x_pos() + cos(θ)·dx − sin(θ)·dy;`
`measurement.y_pos() = x.y_pos() + sin(θ)·dx + cos(θ)·dy;`. -/
noncomputable def h (m : PositionMeasurementModel) (x : State) :
    PositionMeasurement :=
  let measurement : PositionMeasurement := fun _ => 0
  let measurement := measurement.set_x_pos
    (x.x_pos + Real.cos x.theta * m.antenna_distance_x
      - Real.sin x.theta * m.antenna_distance_y)
  let measurement := measurement.set_y_pos
    (x.y_pos + Real.sin x.theta * m.antenna_distance_x
      + Real.cos x.theta * m.antenna_distance_y)
  measurement

/-- `updateJacobians(const S& x)`: the body is `this->H.setIdentity();`,
ignoring the state argument and leaving every other field untouched. -/
def updateJacobians (m : PositionMeasurementModel) (_x : State) :
    PositionMeasurementModel :=
  { m with H := identity2x3 }

end PositionMeasurementModel

/-- Helper: the x component written by `h`. -/
theorem h_x_pos_eval (m : PositionMeasurementModel) (x : State) :
    (m.h x).x_pos = x.x_pos + Real.cos x.theta * m.antenna_distance_x
      - Real.sin x.theta * m.antenna_distance_y := by
  simp [PositionMeasurementModel.h, PositionMeasurement.x_pos,
    PositionMeasurement.set_x_pos, PositionMeasurement.set_y_pos,
    PositionMeasurement.X, PositionMeasurement.Y, Function.update]

/-- Helper: the y component written by `h`. -/
theorem h_y_pos_eval (m : PositionMeasurementModel) (x : State) :
    (m.h x).y_pos = x.y_pos + Real.sin x.theta * m.antenna_distance_x
      + Real.cos x.theta * m.antenna_distance_y := by
  simp [PositionMeasurementModel.h, PositionMeasurement.y_pos,
    PositionMeasurement.set_x_pos, PositionMeasurement.set_y_pos,
    PositionMeasurement.X, PositionMeasurement.Y, Function.update]

/-- C1: for every state `x` and the model's calibration offsets
`(dx, dy)`, the measurement `h(x)` satisfies the rotated-offset formula:
its x component equals `x_pos + cos(θ)·dx − sin(θ)·dy` and its y component
equals `y_pos + sin(θ)·dx + cos(θ)·dy`. -/
theorem h_rotated_offset (m : PositionMeasurementModel) (x : State) :
    (m.h x).x_pos = x.x_pos + Real.cos x.theta * m.antenna_distance_x
        - Real.sin x.theta * m.antenna_distance_y ∧
    (m.h x).y_pos = x.y_pos + Real.sin x.theta * m.antenna_distance_x
        + Real.cos x.theta * m.antenna_distance_y :=
  ⟨h_x_pos_eval m x, h_y_pos_eval m x⟩

/-- C4: with the constructed calibration offsets `dx = −0.01` and
`dy = 0.03`, evaluating `h` on the state `(0, 0, π/2)` yields the
measurement `(−0.03, −0.01)`. -/
theorem h_at_quarter_turn :
    (PositionMeasurementModel.construct.h ⟨0, 0, Real.pi / 2⟩).x_pos = -0.03 ∧
    (PositionMeasurementModel.construct.h ⟨0, 0, Real.pi / 2⟩).y_pos = -0.01 := by
  constructor
  · rw [h_x_pos_eval]
    simp [PositionMeasurementModel.construct, Real.cos_pi_div_two,
      Real.sin_pi_div_two]
  · rw [h_y_pos_eval]
    simp [PositionMeasurementModel.construct, Real.cos_pi_div_two,
      Real.sin_pi_div_two]

/-- Spec-side definition (§4.3), for comparison with the code's `H`: the
full analytic Jacobian of `h` with respect to `(x, y, θ)`, with unit
partials in the position columns and heading partials
`∂z_x/∂θ = −sin(θ)·dx − cos(θ)·dy`, `∂z_y/∂θ = cos(θ)·dx − sin(θ)·dy`. -/
noncomputable def analyticH (m : PositionMeasurementModel) (x : State) :
    Matrix (Fin 2) (Fin 3) ℝ :=
  Matrix.of fun i j =>
    if i = 0 then
      if j = 0 then 1
      else if j = 1 then 0
      else -Real.sin x.theta * m.antenna_distance_x
        - Real.cos x.theta * m.antenna_distance_y
    else
      if j = 0 then 0
      else if j = 1 then 1
      else Real.cos x.theta * m.antenna_distance_x
        - Real.sin x.theta * m.antenna_distance_y

/-- C2 counterexample: for the constructed model (offsets `−0.01`, `0.03`)
and the state `(0, 0, 0)`, the Jacobian `H` produced by `updateJacobians`
differs from the analytic Jacobian of `h`: the heading partial `∂z_x/∂θ`
is `0` in `H` but `−0.03` analytically. -/
theorem updateJacobians_not_analytic :
    ¬ ((PositionMeasurementModel.construct.updateJacobians ⟨0, 0, 0⟩).H
        = analyticH PositionMeasurementModel.construct ⟨0, 0, 0⟩) := by
  intro heq
  have h02 := congrFun (congrFun heq 0) 2
  norm_num [PositionMeasurementModel.updateJacobians, identity2x3, analyticH,
    PositionMeasurementModel.construct, Matrix.of_apply] at h02
  rw [if_neg (by decide : (2 : Fin 3) ≠ 0),
    if_neg (by decide : (2 : Fin 3) ≠ 1)] at h02
  norm_num at h02

/-- C2 amended: after `updateJacobians(x)` the Jacobian `H` agrees with the
analytic Jacobian of `h` in the unit partials with respect to `x_pos` and
`y_pos` (columns 0 and 1), but its heading column is zero rather than the
trigonometric partials: `H` is the identity approximation, exact only when
the heading partials vanish. -/
theorem updateJacobians_identity_approximation
    (m : PositionMeasurementModel) (x : State) (i : Fin 2) :
    (m.updateJacobians x).H i 0 = analyticH m x i 0 ∧
    (m.updateJacobians x).H i 1 = analyticH m x i 1 ∧
    (m.updateJacobians x).H i 2 = 0 := by
  fin_cases i <;>
    simp [PositionMeasurementModel.updateJacobians, identity2x3, analyticH,
      Matrix.of_apply]

/-- C3: for every model and state, `updateJacobians(x)` sets the
measurement Jacobian `H` to the identity matrix, and the resulting `H` is
the same regardless of the state passed in. -/
theorem updateJacobians_sets_H_identity
    (m : PositionMeasurementModel) (x x' : State) :
    (m.updateJacobians x).H = identity2x3 ∧
    (m.updateJacobians x).H = (m.updateJacobians x').H :=
  ⟨rfl, rfl⟩

/-- One externally invokable operation of the measurement model: a call to
`h` (a `const` member, leaving the model unchanged) or a call to
`updateJacobians` on some state. -/
inductive Op where
  | callH (x : State)
  | callUpdateJacobians (x : State)

/-- Effect of one operation on the model's fields. -/
def applyOp (m : PositionMeasurementModel) : Op → PositionMeasurementModel
  | Op.callH _ => m
  | Op.callUpdateJacobians x => m.updateJacobians x

/-- Run a sequence of operations on the model. -/
def runOps (m : PositionMeasurementModel) (ops : List Op) :
    PositionMeasurementModel :=
  ops.foldl applyOp m

/-- Helper: no single operation changes `V`. -/
theorem applyOp_V (m : PositionMeasurementModel) (op : Op) :
    (applyOp m op).V = m.V := by
  cases op <;> rfl

/-- Helper: no single operation changes the antenna offsets. -/
theorem applyOp_offsets (m : PositionMeasurementModel) (op : Op) :
    (applyOp m op).antenna_distance_x = m.antenna_distance_x ∧
    (applyOp m op).antenna_distance_y = m.antenna_distance_y := by
  cases op <;> exact ⟨rfl, rfl⟩

/-- Helper: no sequence of operations changes `V`. -/
theorem runOps_V (m : PositionMeasurementModel) (ops : List Op) :
    (runOps m ops).V = m.V := by
  induction ops generalizing m with
  | nil => rfl
  | cons op ops ih =>
    rw [runOps, List.foldl_cons]
    rw [show List.foldl applyOp (applyOp m op) ops = runOps (applyOp m op) ops
      from rfl]
    rw [ih, applyOp_V]

/-- Helper: no sequence of operations changes the antenna offsets. -/
theorem runOps_offsets (m : PositionMeasurementModel) (ops : List Op) :
    (runOps m ops).antenna_distance_x = m.antenna_distance_x ∧
    (runOps m ops).antenna_distance_y = m.antenna_distance_y := by
  induction ops generalizing m with
  | nil => exact ⟨rfl, rfl⟩
  | cons op ops ih =>
    rw [runOps, List.foldl_cons]
    rw [show List.foldl applyOp (applyOp m op) ops = runOps (applyOp m op) ops
      from rfl]
    rcases ih (applyOp m op) with ⟨hx, hy⟩
    rcases applyOp_offsets m op with ⟨hx', hy'⟩
    exact ⟨hx.trans hx', hy.trans hy'⟩

/-- C5: the noise Jacobian `V` is the identity at construction and stays
the identity after any sequence of calls to `h` and `updateJacobians`. -/
theorem V_identity_invariant (ops : List Op) :
    PositionMeasurementModel.construct.V = 1 ∧
    (runOps PositionMeasurementModel.construct ops).V = 1 :=
  ⟨rfl, (runOps_V PositionMeasurementModel.construct ops).trans rfl⟩

/-- C6: the calibration offsets are fixed at construction (`−0.01`,
`0.03`) and unchanged by every sequence of calls to `h` and
`updateJacobians`: afterwards they still equal their constructed values. -/
theorem antenna_offsets_immutable (ops : List Op) :
    (runOps PositionMeasurementModel.construct ops).antenna_distance_x
        = -0.01 ∧
    (runOps PositionMeasurementModel.construct ops).antenna_distance_y
        = 0.03 := by
  rcases runOps_offsets PositionMeasurementModel.construct ops with ⟨hx, hy⟩
  exact ⟨hx.trans rfl, hy.trans rfl⟩

/-- C7: `h` and `updateJacobians` are pure functions of `(state,
calibration)`: two models with equal offsets (whatever their `H` and `V`
fields) give equal `h` results and equal `H` matrices from
`updateJacobians` at the same state, and `updateJacobians` changes no
field other than `H`. -/
theorem h_updateJacobians_pure
    (V V' : Matrix (Fin 2) (Fin 2) ℝ) (H H' : Matrix (Fin 2) (Fin 3) ℝ)
    (dx dy : ℝ) (x : State) :
    PositionMeasurementModel.h ⟨V, H, dx, dy⟩ x
        = PositionMeasurementModel.h ⟨V', H', dx, dy⟩ x ∧
    (PositionMeasurementModel.updateJacobians ⟨V, H, dx, dy⟩ x).H
        = (PositionMeasurementModel.updateJacobians ⟨V', H', dx, dy⟩ x).H ∧
    (PositionMeasurementModel.updateJacobians ⟨V, H, dx, dy⟩ x).V = V ∧
    (PositionMeasurementModel.updateJacobians ⟨V, H, dx, dy⟩ x).antenna_distance_x
        = dx ∧
    (PositionMeasurementModel.updateJacobians ⟨V, H, dx, dy⟩ x).antenna_distance_y
        = dy :=
  ⟨rfl, rfl, rfl, rfl, rfl⟩

/-- C8: accessor round trip on `PositionMeasurement`: writing through
`x_pos()` makes `x_pos()` read that value and leaves `y_pos()` unchanged,
and symmetrically for `y_pos()`; the two accessors address the distinct
components `0` and `1`. -/
theorem measurement_accessor_round_trip (m : PositionMeasurement) (v : ℝ) :
    (m.set_x_pos v).x_pos = v ∧
    (m.set_x_pos v).y_pos = m.y_pos ∧
    (m.set_y_pos v).y_pos = v ∧
    (m.set_y_pos v).x_pos = m.x_pos ∧
    PositionMeasurement.X = 0 ∧
    PositionMeasurement.Y = 1 ∧
    PositionMeasurement.X ≠ PositionMeasurement.Y := by
  refine ⟨?_, ?_, ?_, ?_, rfl, rfl, by decide⟩ <;>
    simp [PositionMeasurement.x_pos, PositionMeasurement.y_pos,
      PositionMeasurement.set_x_pos, PositionMeasurement.set_y_pos,
      PositionMeasurement.X, PositionMeasurement.Y, Function.update]

/-- C9: component noninterference of `h`: the x component of `h` does not
depend on `y_pos`, and the y component does not depend on `x_pos` — each
output component depends only on the matching position component and the
heading. -/
theorem h_component_noninterference (m : PositionMeasurementModel)
    (a c y y' b b' : ℝ) :
    (m.h ⟨a, y, c⟩).x_pos = (m.h ⟨a, y', c⟩).x_pos ∧
    (m.h ⟨b, a, c⟩).y_pos = (m.h ⟨b', a, c⟩).y_pos := by
  constructor
  · rw [h_x_pos_eval, h_x_pos_eval]
  · rw [h_y_pos_eval, h_y_pos_eval]

/-- C10: translation equivariance of `h`: shifting the state's position
by `(a, b)` with heading unchanged shifts the measurement by exactly
`(a, b)`. -/
theorem h_translation_equivariant (m : PositionMeasurementModel)
    (x : State) (a b : ℝ) :
    (m.h ⟨x.x_pos + a, x.y_pos + b, x.theta⟩).x_pos = (m.h x).x_pos + a ∧
    (m.h ⟨x.x_pos + a, x.y_pos + b, x.theta⟩).y_pos = (m.h x).y_pos + b := by
  constructor
  · rw [h_x_pos_eval, h_x_pos_eval]; ring
  · rw [h_y_pos_eval, h_y_pos_eval]; ring

end XbotPositioning
